import Mathlib

/-!
Verification of the research-brief pipeline (backend/app of the
Context-Aware-Research-Brief-Generator repository).

The development shallowly embeds the pipeline core:
data model from `app/schemas.py` and `app/state.py`, the stage functions
from `app/nodes.py`, the routing and graph wiring from `app/graph.py`,
and the search-hit filtering from `app/tools.py`.

External collaborators (the structured-output model invoker and the
search+fetch client) are modelled by an `Oracle` record: each model
invocation either succeeds with a collaborator-chosen value of the target
schema or fails (the code's caught `Exception` on `invoke`).  Stage
functions return a partial state update (the dict a LangGraph node
returns); the graph merges updates with last-value-wins channel
semantics, exactly as a plain `TypedDict` state behaves in LangGraph.

Wall-clock fields (`generated_at`, `extracted_at`, execution metadata)
are observability-only in the source and are not modelled; the
`generated_at` string used by the synthesis fallback metadata is supplied
by the oracle (`now`).
-/

namespace ResearchBrief

/-! ## Data model (app/schemas.py, app/state.py) -/

/-- `ResearchPlan` from schemas.py.  `expected_sources` is an `int` field
with pydantic bounds `ge=1, le=15`; the bounds are validation on
construction, stated in theorems where relevant. -/
structure ResearchPlan where
  queries : List String
  rationale : String
  expected_sources : Nat
  focus_areas : List String
deriving DecidableEq

/-- `SourceSummary` from schemas.py.  `relevance_score` is a float with
pydantic bounds `ge=0.0, le=1.0`; modelled as a rational. -/
structure SourceSummary where
  url : String
  title : String
  summary : String
  relevance_score : ℚ
  key_points : List String
  source_type : String
  publication_date : Option String
  author : Option String
deriving DecidableEq

/-- `ContextSummary` from schemas.py.  The free-form
`user_preferences : Dict[str, Any]` map is modelled as an association
list of strings. -/
structure ContextSummary where
  previous_topics : List String
  key_findings : List String
  user_preferences : List (String × String)
  continuity_notes : String
deriving DecidableEq

/-- `FinalBrief` from schemas.py.  The free-form `metadata` map is
modelled as an association list of strings (`source_count` is rendered
with `toString`, as the claims only consult the `error` entry).
`generated_at` (a wall-clock default) is not modelled. -/
structure FinalBrief where
  topic : String
  executive_summary : String
  synthesis : String
  key_insights : List String
  references : List SourceSummary
  context_used : Option ContextSummary
  metadata : List (String × String)
deriving DecidableEq

/-- One fetched-content dictionary as built by
`SearchTool.search_and_fetch` in tools.py
(`title`/`content`/`url`/`word_count`; `extracted_at` is a wall-clock
stamp and is not modelled). -/
structure RawContent where
  title : String
  content : String
  url : String
  word_count : Nat
deriving DecidableEq

/-- `GraphState` from state.py.  `execution_metadata` is used only for
observability (trace ids) and is not modelled. -/
structure GraphState where
  topic : String
  user_id : String
  depth : String
  is_follow_up : Bool
  additional_context : Option String
  history : List FinalBrief
  context_summary : Option ContextSummary
  plan : Option ResearchPlan
  search_results : Option (List RawContent)
  fetched_content : Option (List RawContent)
  summaries : Option (List SourceSummary)
  final_brief : Option FinalBrief
  error : Option String
deriving DecidableEq

/-! ## Python string helpers used by the embedded code -/

/-- Helper for `pyWords`: walk the characters, accumulating the current
word (reversed); whitespace closes a word, empty words are dropped. -/
def splitWordsAux : List Char → List Char → List (List Char)
  | [], [] => []
  | [], w => [w.reverse]
  | c :: rest, w =>
    if c.isWhitespace then
      if w.isEmpty then splitWordsAux rest []
      else w.reverse :: splitWordsAux rest []
    else splitWordsAux rest (c :: w)

/-- Python `str.split()` with no argument: split on whitespace runs,
dropping empty words. -/
def pyWords (s : String) : List (List Char) :=
  splitWordsAux s.data []

/-- Whether `pat` sits at the head of `hay`. -/
def leadsWith : List Char → List Char → Bool
  | _, [] => true
  | [], _ :: _ => false
  | c :: cs, p :: ps => c == p && leadsWith cs ps

/-- Whether `pat` occurs as a contiguous run anywhere in `hay`. -/
def hasSub : List Char → List Char → Bool
  | [], pat => pat.isEmpty
  | c :: cs, pat => leadsWith (c :: cs) pat || hasSub cs pat

/-- Python `pat in s` substring containment. -/
def strContains (s pat : String) : Bool :=
  hasSub s.data pat.data

/-- Python `str.lower()`: lower-case every character. -/
def lowerString (s : String) : String :=
  String.mk (s.data.map Char.toLower)

/-! ## Retrieval filtering (app/tools.py, `SearchTool`) -/

/-- Characters Python's `urllib.parse` accepts inside a URL scheme. -/
def isSchemeChar (c : Char) : Bool :=
  c.isAlphanum || c = '+' || c = '-' || c = '.'

/-- The scheme and network-location parts of a parsed URL. -/
structure UrlParts where
  scheme : String
  netloc : String
deriving DecidableEq

/-- Split at the first `:`: the characters before it and after it, or
`none` when there is no colon. -/
def splitAtColon : List Char → Option (List Char × List Char)
  | [] => none
  | c :: cs =>
    if c = ':' then some ([], cs)
    else
      match splitAtColon cs with
      | none => none
      | some (pre, rest) => some (c :: pre, rest)

/-- Network location per `urllib.parse`: present only when the remainder
after the scheme starts with `//`, running up to the next `/`, `?` or
`#`. -/
def netlocOfChars : List Char → List Char
  | '/' :: '/' :: rest => rest.takeWhile (fun c => c ≠ '/' && c ≠ '?' && c ≠ '#')
  | _ => []

/-- Whether a scheme candidate (the text before the first `:`) is a
well-formed scheme: nonempty, first character alphabetic, all characters
from the scheme alphabet. -/
def validSchemeChars : List Char → Bool
  | [] => false
  | c :: rest => c.isAlpha && rest.all isSchemeChar

/-- `urllib.parse.urlparse`, restricted to the scheme and netloc
components consulted by `SearchTool._is_valid_url`: split at the first
`:` when the text before it is a well-formed scheme (lower-casing it),
then read the netloc from the remainder; otherwise read the netloc from
the whole URL. -/
def urlparse (url : String) : UrlParts :=
  match splitAtColon url.data with
  | none => { scheme := "", netloc := String.mk (netlocOfChars url.data) }
  | some (pre, rest) =>
    if validSchemeChars pre then
      { scheme := String.mk (pre.map Char.toLower)
        netloc := String.mk (netlocOfChars rest) }
    else
      { scheme := "", netloc := String.mk (netlocOfChars url.data) }

/-- The block-list checked by `SearchTool._is_valid_url`. -/
def blockedFragments : List String :=
  ["javascript:", "data:", "file:", "ftp:"]

/-- `SearchTool._is_valid_url` (tools.py lines 341-361): scheme must be
http or https, netloc nonempty, and none of the blocked fragments may
occur anywhere in the lower-cased URL (a substring check on the whole
URL, not on the scheme). -/
def is_valid_url (url : String) : Bool :=
  let parsed := urlparse url
  (parsed.scheme == "http" || parsed.scheme == "https") &&
  parsed.netloc != "" &&
  !(blockedFragments.any (fun b => strContains (lowerString url) b))

/-- One dict-shaped search hit from the search collaborator
(`url`/`title`/`content` keys, the Tavily result format). -/
structure SearchHit where
  url : String
  title : String
  content : String
deriving DecidableEq

/-- Normalization of a dict hit into a fetched-content record
(tools.py lines 233-239): `word_count` is `len(content.split())`. -/
def normalizeHit (h : SearchHit) : RawContent :=
  { title := h.title
    content := h.content
    url := h.url
    word_count := (pyWords h.content).length }

/-- The keep/discard decision for a dict hit (tools.py lines 229-241):
kept exactly when the url is nonempty (Python truthiness), passes
`_is_valid_url`, and the normalized word count exceeds 20. -/
def keepHit (h : SearchHit) : Bool :=
  h.url != "" && is_valid_url h.url &&
  decide ((normalizeHit h).word_count > 20)

/-- Modelled from the spec wording of claim C9, for comparison with the
source predicate `is_valid_url`: valid means scheme http/https, netloc
nonempty, and the scheme does not start with any blocked fragment. -/
def specValidUrl (url : String) : Bool :=
  let parsed := urlparse url
  (parsed.scheme == "http" || parsed.scheme == "https") &&
  parsed.netloc != "" &&
  !(blockedFragments.any (fun b => leadsWith parsed.scheme.data b.data))

/-! ## Collaborator oracle and node updates -/

/-- Outcome of one per-source summarization attempt, mirroring the two
`except` tiers in `per_source_summarizer` (nodes.py lines 331-373):
a successful structured invocation, an invocation failure (caught at
line 334), or any other per-source exception (caught at line 360). -/
inductive SummOutcome where
  | ok (s : SourceSummary)
  | invokeFail
  | otherFail (msg : String)
deriving DecidableEq

/-- The external collaborators for one pipeline run: each structured
model invocation either succeeds with a collaborator-chosen value of the
target schema (`some`) or raises (`none`), and the search+fetch
collaborator returns its combined filtered result list.  `now` supplies
the wall-clock string used in fallback metadata. -/
structure Oracle where
  recallResult : Option ContextSummary
  planResult : Option ResearchPlan
  searchResult : List RawContent
  summarize : Nat → SummOutcome
  synthesize : Option FinalBrief
  now : String

/-- The partial-update dict a LangGraph node returns.  An outer `none`
means the key is absent from the returned dict (channel untouched);
`context_summary` is doubly optional because `context_summarizer` can
return an explicit `None` value for that key (nodes.py line 49). -/
structure NodeUpdate where
  context_summary : Option (Option ContextSummary) := none
  plan : Option ResearchPlan := none
  search_results : Option (List RawContent) := none
  fetched_content : Option (List RawContent) := none
  summaries : Option (List SourceSummary) := none
  final_brief : Option FinalBrief := none
  error : Option String := none

/-! ## Stage functions (app/nodes.py) -/

/-- The deterministic fallback `ContextSummary` built when the context
invocation fails (nodes.py lines 97-102): topics and flattened insights
from the whole history. -/
def fallbackContext (history : List FinalBrief) : ContextSummary :=
  { previous_topics := history.map (fun b => b.topic)
    key_findings := history.flatMap (fun b => b.key_insights)
    user_preferences := []
    continuity_notes := "Previous research context available" }

/-- `context_summarizer` (nodes.py lines 32-118).  Returns the node
update together with the number of context-recall model invocations
performed (the `structured_llm.invoke` call at line 86 runs once unless
the guard at line 45 returned early). -/
def context_summarizer (o : Oracle) (s : GraphState) : NodeUpdate × Nat :=
  if s.history.isEmpty || !s.is_follow_up then
    ({ context_summary := some none }, 0)
  else
    match o.recallResult with
    | some cs => ({ context_summary := some (some cs) }, 1)
    | none => ({ context_summary := some (some (fallbackContext s.history)) }, 1)

/-- The depth-to-source-count table of the planner fallback
(nodes.py lines 181-186), with `dict.get` default 5. -/
def depthToSources (depth : String) : Nat :=
  if depth = "shallow" then 3
  else if depth = "moderate" then 5
  else if depth = "deep" then 8
  else 5

/-- The deterministic fallback `ResearchPlan` (nodes.py lines 188-193). -/
def fallbackPlan (topic depth : String) : ResearchPlan :=
  { queries := [topic ++ " research", topic ++ " analysis", topic ++ " trends"]
    rationale := "Basic search queries for the topic"
    expected_sources := depthToSources depth
    focus_areas := [topic] }

/-- `planner` (nodes.py lines 121-209): a successful invocation yields
the collaborator's plan, a failed one the deterministic fallback. -/
def planner (o : Oracle) (s : GraphState) : NodeUpdate :=
  match o.planResult with
  | some p => { plan := some p }
  | none => { plan := some (fallbackPlan s.topic s.depth) }

/-- `search_and_fetch` (nodes.py lines 212-242): error when the plan is
missing, error when the collaborator's combined list is empty, otherwise
both result channels are set to the fetched list. -/
def search_and_fetch (o : Oracle) (s : GraphState) : NodeUpdate :=
  match s.plan with
  | none => { error := some "No research plan available" }
  | some _ =>
    if o.searchResult.isEmpty then
      { error := some "No content could be fetched from search results" }
    else
      { search_results := some o.searchResult
        fetched_content := some o.searchResult }

/-- The first-tier per-source fallback, used when the structured
invocation for one source fails (nodes.py lines 336-353). -/
def tier1Fallback (c : RawContent) : SourceSummary :=
  let content_text := c.content.take 1000
  { url := c.url
    title := c.title
    summary := content_text ++ "..."
    relevance_score := 7 / 10
    key_points :=
      [if content_text.length > 200 then content_text.take 200 ++ "..." else content_text,
       "Source provides relevant information on the topic",
       "Content includes specific details and insights"]
    source_type := "web page"
    publication_date := none
    author := none }

/-- The second-tier per-source fallback, used on any other exception
while processing one source (nodes.py lines 360-373). -/
def tier2Fallback (c : RawContent) (msg : String) : SourceSummary :=
  { url := c.url
    title := c.title
    summary := "Error processing source: " ++ msg
    relevance_score := 0
    key_points := ["Error processing source"]
    source_type := "web page"
    publication_date := none
    author := none }

/-- The summary recorded for one source, by outcome of its invocation. -/
def summarizeOne (c : RawContent) : SummOutcome → SourceSummary
  | SummOutcome.ok t => t
  | SummOutcome.invokeFail => tier1Fallback c
  | SummOutcome.otherFail msg => tier2Fallback c msg

/-- The `for i, content in enumerate(fetched_content)` loop of
`per_source_summarizer`, threading the source index `i`. -/
def summarizeAll (o : Oracle) : Nat → List RawContent → List SourceSummary
  | _, [] => []
  | i, c :: rest => summarizeOne c (o.summarize i) :: summarizeAll o (i + 1) rest

/-- `per_source_summarizer` (nodes.py lines 276-380): error when
`fetched_content` is missing or empty (Python truthiness at line 285),
otherwise one summary per source. -/
def per_source_summarizer (o : Oracle) (s : GraphState) : NodeUpdate :=
  match s.fetched_content with
  | none => { error := some "No content available for summarization" }
  | some fetched =>
    if fetched.isEmpty then
      { error := some "No content available for summarization" }
    else
      { summaries := some (summarizeAll o 0 fetched) }

/-- Keyword list for comparison-like key points (nodes.py line 518). -/
def comparisonWords : List String :=
  ["compare", "versus", "vs", "than", "while", "whereas"]

/-- Keyword list for data-like key points (nodes.py line 519). -/
def dataWords : List String :=
  ["%", "percent", "million", "billion", "number", "rank", "top",
   "first", "second", "third"]

/-- Keyword list for trend-like key points (nodes.py line 520). -/
def trendWords : List String :=
  ["trend", "growth", "increase", "decrease", "rise", "fall",
   "emerging", "growing"]

/-- Python `any(word in point.lower() for word in words)`. -/
def mentionsAny (point : String) (words : List String) : Bool :=
  words.any (fun w => strContains (lowerString point) w)

/-- Python `", ".join(l[:3])`. -/
def joinFirstThree (l : List String) : String :=
  String.intercalate ", " (l.take 3)

/-- The deterministic fallback `FinalBrief` built when the synthesis
invocation fails with a nonempty summary list (nodes.py lines 470-573;
the node's guard at line 392 rules the empty list out before this point).
Python iterates `source_types` as a set, whose order is unspecified;
first-occurrence deduplication is used here. -/
def synthFallback (o : Oracle) (topic : String)
    (ctx : Option ContextSummary) (summaries : List SourceSummary) : FinalBrief :=
  let n := summaries.length
  let all_key_points := summaries.flatMap (fun x => x.key_points)
  let source_types := (summaries.map (fun x => x.source_type)).dedup
  let executive_summary :=
    "Comprehensive analysis of " ++ topic ++ " based on " ++ toString n ++
    " carefully selected sources. The research reveals key trends, challenges, and opportunities in this domain. The analysis covers multiple perspectives and provides actionable insights for stakeholders."
  let key_insights :=
    ["Research analyzed " ++ toString n ++ " high-quality sources on " ++ topic,
     "Multiple perspectives and viewpoints were considered in the analysis",
     "Key trends and patterns were identified across different sources",
     "The research provides actionable insights for decision-making",
     "Comprehensive coverage of current developments and future implications"]
  let comparison_points := all_key_points.filter (fun p => mentionsAny p comparisonWords)
  let data_points := all_key_points.filter (fun p => mentionsAny p dataWords)
  let trend_points := all_key_points.filter (fun p => mentionsAny p trendWords)
  let remaining_points :=
    all_key_points.filter
      (fun p => !((comparison_points ++ data_points ++ trend_points).contains p))
  let bucketSentences :=
    (if comparison_points.isEmpty then []
     else ["Comparative analysis reveals: " ++ joinFirstThree comparison_points ++ "."]) ++
    (if data_points.isEmpty then []
     else ["Key data points include: " ++ joinFirstThree data_points ++ "."]) ++
    (if trend_points.isEmpty then []
     else ["Emerging trends identified: " ++ joinFirstThree trend_points ++ "."]) ++
    (if remaining_points.isEmpty then []
     else ["Additional findings include: " ++ joinFirstThree remaining_points ++ "."])
  let high_relevance := summaries.filter (fun x => x.relevance_score ≥ 8 / 10)
  let synthesis_parts :=
    ["Detailed analysis of " ++ topic ++ " reveals significant insights across " ++
       toString n ++ " sources."] ++
    (if source_types.length > 1 then
       ["The research draws from diverse source types including " ++
          joinFirstThree source_types ++ " and others."]
     else []) ++
    (if all_key_points.isEmpty then [] else bucketSentences) ++
    ["The research demonstrates the complexity and multifaceted nature of this topic, with sources ranging from academic research to industry reports.",
     "Strategic implications include emerging trends, technological developments, and opportunities for various stakeholders."] ++
    (if high_relevance.isEmpty then []
     else ["High-relevance sources (" ++ toString high_relevance.length ++
             ") provide particularly valuable insights for strategic decision-making."])
  { topic := topic
    executive_summary := executive_summary
    synthesis := String.intercalate " " synthesis_parts
    key_insights := key_insights
    references := summaries
    context_used := ctx
    metadata := [("generated_at", o.now), ("source_count", toString n)] }

/-- `synthesizer` (nodes.py lines 383-584): error when `summaries` is
missing or empty, the collaborator's brief on success, the deterministic
fallback brief on invocation failure. -/
def synthesizer (o : Oracle) (s : GraphState) : NodeUpdate :=
  match s.summaries with
  | none => { error := some "No summaries available for synthesis" }
  | some summaries =>
    if summaries.isEmpty then
      { error := some "No summaries available for synthesis" }
    else
      match o.synthesize with
      | some fb => { final_brief := some fb }
      | none => { final_brief := some (synthFallback o s.topic s.context_summary summaries) }

/-- The sentinel reference of the error-terminal brief
(nodes.py lines 598-607). -/
def errorReference (error : String) : SourceSummary :=
  { url := "https://error.example.com"
    title := "Error in Research Generation"
    summary := "An error occurred during research generation: " ++ error
    relevance_score := 0
    key_points := ["Error occurred during research generation"]
    source_type := "error"
    publication_date := none
    author := none }

/-- The error-terminal brief (nodes.py lines 613-620). -/
def errorBrief (topic error : String) : FinalBrief :=
  { topic := topic
    executive_summary :=
      "Error generating research brief: " ++ error ++
      ". Please try again with a different topic or check your API configuration."
    synthesis := "Unable to complete research due to errors. The system encountered issues while processing your request. This could be due to API configuration problems, network issues, or invalid search queries."
    key_insights :=
      ["Error occurred during research generation",
       "Please check API configuration",
       "Try with a different topic"]
    references := [errorReference error]
    context_used := none
    metadata := [("error", error)] }

/-- `error_handler` (nodes.py lines 587-630): builds the terminal brief
when `error` is truthy, otherwise returns an empty update. -/
def error_handler (s : GraphState) : NodeUpdate :=
  match s.error with
  | none => {}
  | some e => if e = "" then {} else { final_brief := some (errorBrief s.topic e) }

/-! ## Graph wiring (app/graph.py) -/

/-- Entry routing predicate `should_summarize_context`
(graph.py lines 23-38), with Python truthiness of the bool and the
history list. -/
def should_summarize_context (s : GraphState) : String :=
  if s.is_follow_up && !s.history.isEmpty then "context_summarizer" else "planner"

/-- Post-summarization routing predicate `should_continue_after_error`
(graph.py lines 41-55), with Python truthiness of the optional error
string. -/
def should_continue_after_error (s : GraphState) : String :=
  match s.error with
  | none => "synthesizer"
  | some e => if e = "" then "synthesizer" else "error_handler"

/-- Merge a node's returned dict into the state.  `GraphState` is a
plain `TypedDict`, so every LangGraph channel is last-value-wins: a key
present in the update replaces the channel, an absent key leaves it. -/
def applyUpdate (s : GraphState) (u : NodeUpdate) : GraphState :=
  { topic := s.topic
    user_id := s.user_id
    depth := s.depth
    is_follow_up := s.is_follow_up
    additional_context := s.additional_context
    history := s.history
    context_summary :=
      match u.context_summary with
      | some v => v
      | none => s.context_summary
    plan :=
      match u.plan with
      | some p => some p
      | none => s.plan
    search_results :=
      match u.search_results with
      | some r => some r
      | none => s.search_results
    fetched_content :=
      match u.fetched_content with
      | some r => some r
      | none => s.fetched_content
    summaries :=
      match u.summaries with
      | some r => some r
      | none => s.summaries
    final_brief :=
      match u.final_brief with
      | some b => some b
      | none => s.final_brief
    error :=
      match u.error with
      | some e => some e
      | none => s.error }

/-- State after the conditional entry edge
(graph.py lines 79-86): `context_summarizer` runs exactly when the entry
predicate routes to it, otherwise control goes straight to `planner`. -/
def stateAfterContext (o : Oracle) (s : GraphState) : GraphState :=
  if should_summarize_context s = "context_summarizer" then
    applyUpdate s (context_summarizer o s).1
  else s

/-- State after the `planner` node (edge at graph.py line 89 or the
direct entry edge). -/
def stateAfterPlanner (o : Oracle) (s : GraphState) : GraphState :=
  applyUpdate (stateAfterContext o s) (planner o (stateAfterContext o s))

/-- State after `search_and_fetch` (edge at graph.py line 92). -/
def stateAfterSearch (o : Oracle) (s : GraphState) : GraphState :=
  applyUpdate (stateAfterPlanner o s) (search_and_fetch o (stateAfterPlanner o s))

/-- State after `per_source_summarizer` (edge at graph.py line 93); this
is the post-summarization checkpoint. -/
def stateAfterSumm (o : Oracle) (s : GraphState) : GraphState :=
  applyUpdate (stateAfterSearch o s) (per_source_summarizer o (stateAfterSearch o s))

/-- Result of one full run: the final state, the executed node names in
order, and how many context-recall model invocations happened. -/
structure RunResult where
  state : GraphState
  executed : List String
  recallInvocations : Nat

/-- One full run of the compiled graph (graph.py lines 58-110): the
conditional entry edge, the linear chain through planning, retrieval and
per-source summarization, then the conditional edge to exactly one of
the two terminal nodes, each wired to `END`. -/
def entryNodes (s : GraphState) : List String :=
  if should_summarize_context s = "context_summarizer" then ["context_summarizer"] else []

def entryInvocations (o : Oracle) (s : GraphState) : Nat :=
  if should_summarize_context s = "context_summarizer" then (context_summarizer o s).2 else 0

def runPipeline (o : Oracle) (s : GraphState) : RunResult :=
  if should_continue_after_error (stateAfterSumm o s) = "error_handler" then
    { state := applyUpdate (stateAfterSumm o s) (error_handler (stateAfterSumm o s))
      executed := entryNodes s ++
        ["planner", "search_and_fetch", "per_source_summarizer", "error_handler"]
      recallInvocations := entryInvocations o s }
  else
    { state := applyUpdate (stateAfterSumm o s) (synthesizer o (stateAfterSumm o s))
      executed := entryNodes s ++
        ["planner", "search_and_fetch", "per_source_summarizer", "synthesizer"]
      recallInvocations := entryInvocations o s }

/-- A valid initial `PipelineState` as the caller constructs it
(main.py lines 122-142): all pipeline-output channels start at `None`. -/
def ValidInit (s : GraphState) : Prop :=
  s.context_summary = none ∧ s.plan = none ∧ s.search_results = none ∧
  s.fetched_content = none ∧ s.summaries = none ∧ s.final_brief = none ∧
  s.error = none

/-! ## Concrete fixtures for witnesses and counterexamples -/

/-- A fresh initial state exactly as the caller builds it
(main.py lines 122-142). -/
def initState (topic uid depth : String) (fu : Bool)
    (hist : List FinalBrief) : GraphState :=
  { topic := topic
    user_id := uid
    depth := depth
    is_follow_up := fu
    additional_context := none
    history := hist
    context_summary := none
    plan := none
    search_results := none
    fetched_content := none
    summaries := none
    final_brief := none
    error := none }

/-- A fresh non-follow-up request. -/
def baseInit : GraphState :=
  initState "quantum computing advances" "user1" "moderate" false []

/-- A fresh request whose depth string is outside the documented enum. -/
def oddDepthInit : GraphState :=
  initState "quantum computing advances" "user1" "expert" false []

/-- A prior brief for follow-up fixtures. -/
def histBriefOne : FinalBrief :=
  { topic := "quantum error correction"
    executive_summary := "Summary of prior research on quantum error correction, long enough for the schema floor."
    synthesis := "Prior synthesis one."
    key_insights := ["codes matter", "noise dominates"]
    references := []
    context_used := none
    metadata := [] }

/-- A second prior brief for follow-up fixtures. -/
def histBriefTwo : FinalBrief :=
  { topic := "quantum hardware vendors"
    executive_summary := "Summary of prior research on quantum hardware vendors, long enough for the schema floor."
    synthesis := "Prior synthesis two."
    key_insights := ["vendor race"]
    references := []
    context_used := none
    metadata := [] }

/-- A follow-up request with two prior briefs in history. -/
def followUpInit : GraphState :=
  initState "quantum computing advances" "user1" "moderate" true
    [histBriefOne, histBriefTwo]

/-- One fetched source for runs where retrieval succeeds. -/
def sampleFetched : RawContent :=
  { title := "Quantum research overview"
    content := "q q q q q q q q q q q q q q q q q q q q q"
    url := "https://a.example.com/q"
    word_count := 21 }

/-- An oracle on which every collaborator call fails and the search
returns nothing. -/
def failingOracle : Oracle :=
  { recallResult := none
    planResult := none
    searchResult := []
    summarize := fun _ => SummOutcome.invokeFail
    synthesize := none
    now := "2026-01-01T00:00:00" }

/-- An oracle on which search succeeds with one source and every model
invocation fails. -/
def fetchOkOracle : Oracle :=
  { failingOracle with searchResult := [sampleFetched] }

/-- A collaborator-produced summary whose url differs from every fetched
source's url. -/
def mismatchedSummary : SourceSummary :=
  { url := "https://b.example.com/other"
    title := "Other"
    summary := "a model-written summary"
    relevance_score := 1 / 2
    key_points := []
    source_type := "web page"
    publication_date := none
    author := none }

/-- An oracle whose per-source invocation succeeds but returns
`mismatchedSummary`. -/
def mismatchOracle : Oracle :=
  { fetchOkOracle with summarize := fun _ => SummOutcome.ok mismatchedSummary }

/-- A state as it reaches per-source summarization with one fetched
source. -/
def fetchedState : GraphState :=
  { baseInit with fetched_content := some [sampleFetched] }

/-- A search hit whose URL is a well-formed https URL that merely
mentions a blocked fragment in its query string, with more than 20
content words. -/
def blockedSubstringHit : SearchHit :=
  { url := "https://a.b/page?next=javascript:alert"
    title := "t"
    content := "w w w w w w w w w w w w w w w w w w w w w" }

/-! ## Channel-merge helper lemmas -/

theorem applyUpdate_topic (s : GraphState) (u : NodeUpdate) :
    (applyUpdate s u).topic = s.topic := rfl

theorem applyUpdate_depth (s : GraphState) (u : NodeUpdate) :
    (applyUpdate s u).depth = s.depth := rfl

theorem applyUpdate_history (s : GraphState) (u : NodeUpdate) :
    (applyUpdate s u).history = s.history := rfl

theorem applyUpdate_follow (s : GraphState) (u : NodeUpdate) :
    (applyUpdate s u).is_follow_up = s.is_follow_up := rfl

theorem applyUpdate_error_none (s : GraphState) (u : NodeUpdate) (h : u.error = none) :
    (applyUpdate s u).error = s.error := by
  simp [applyUpdate, h]

theorem applyUpdate_context_none (s : GraphState) (u : NodeUpdate)
    (h : u.context_summary = none) :
    (applyUpdate s u).context_summary = s.context_summary := by
  simp [applyUpdate, h]

theorem applyUpdate_plan_none (s : GraphState) (u : NodeUpdate) (h : u.plan = none) :
    (applyUpdate s u).plan = s.plan := by
  simp [applyUpdate, h]

theorem applyUpdate_fetched_none (s : GraphState) (u : NodeUpdate)
    (h : u.fetched_content = none) :
    (applyUpdate s u).fetched_content = s.fetched_content := by
  simp [applyUpdate, h]

theorem applyUpdate_summaries_none (s : GraphState) (u : NodeUpdate)
    (h : u.summaries = none) :
    (applyUpdate s u).summaries = s.summaries := by
  simp [applyUpdate, h]

theorem applyUpdate_final_none (s : GraphState) (u : NodeUpdate)
    (h : u.final_brief = none) :
    (applyUpdate s u).final_brief = s.final_brief := by
  simp [applyUpdate, h]

/-! ## Per-node update-shape lemmas -/

theorem context_summarizer_shape (o : Oracle) (s : GraphState) :
    (context_summarizer o s).1.plan = none ∧
    (context_summarizer o s).1.search_results = none ∧
    (context_summarizer o s).1.fetched_content = none ∧
    (context_summarizer o s).1.summaries = none ∧
    (context_summarizer o s).1.final_brief = none ∧
    (context_summarizer o s).1.error = none ∧
    (context_summarizer o s).1.context_summary.isSome = true := by
  unfold context_summarizer
  split
  · exact ⟨rfl, rfl, rfl, rfl, rfl, rfl, rfl⟩
  · cases o.recallResult <;> exact ⟨rfl, rfl, rfl, rfl, rfl, rfl, rfl⟩

theorem planner_shape (o : Oracle) (s : GraphState) :
    (planner o s).context_summary = none ∧
    (planner o s).search_results = none ∧
    (planner o s).fetched_content = none ∧
    (planner o s).summaries = none ∧
    (planner o s).final_brief = none ∧
    (planner o s).error = none ∧
    (planner o s).plan.isSome = true := by
  unfold planner
  cases o.planResult <;> exact ⟨rfl, rfl, rfl, rfl, rfl, rfl, rfl⟩

theorem search_and_fetch_shape (o : Oracle) (s : GraphState) :
    (search_and_fetch o s).context_summary = none ∧
    (search_and_fetch o s).plan = none ∧
    (search_and_fetch o s).summaries = none ∧
    (search_and_fetch o s).final_brief = none := by
  unfold search_and_fetch
  split
  · exact ⟨rfl, rfl, rfl, rfl⟩
  · split <;> exact ⟨rfl, rfl, rfl, rfl⟩

theorem per_source_summarizer_shape (o : Oracle) (s : GraphState) :
    (per_source_summarizer o s).context_summary = none ∧
    (per_source_summarizer o s).plan = none ∧
    (per_source_summarizer o s).search_results = none ∧
    (per_source_summarizer o s).fetched_content = none ∧
    (per_source_summarizer o s).final_brief = none := by
  unfold per_source_summarizer
  split
  · exact ⟨rfl, rfl, rfl, rfl, rfl⟩
  · split <;> exact ⟨rfl, rfl, rfl, rfl, rfl⟩

theorem synthesizer_shape (o : Oracle) (s : GraphState) :
    (synthesizer o s).context_summary = none ∧
    (synthesizer o s).plan = none ∧
    (synthesizer o s).search_results = none ∧
    (synthesizer o s).fetched_content = none ∧
    (synthesizer o s).summaries = none := by
  unfold synthesizer
  split
  · exact ⟨rfl, rfl, rfl, rfl, rfl⟩
  · split
    · exact ⟨rfl, rfl, rfl, rfl, rfl⟩
    · cases o.synthesize <;> exact ⟨rfl, rfl, rfl, rfl, rfl⟩

theorem error_handler_shape (s : GraphState) :
    (error_handler s).context_summary = none ∧
    (error_handler s).plan = none ∧
    (error_handler s).search_results = none ∧
    (error_handler s).fetched_content = none ∧
    (error_handler s).summaries = none ∧
    (error_handler s).error = none := by
  unfold error_handler
  split
  · exact ⟨rfl, rfl, rfl, rfl, rfl, rfl⟩
  · split <;> exact ⟨rfl, rfl, rfl, rfl, rfl, rfl⟩

/-! ## Stage-chaining lemmas -/

theorem afterContext_topic (o : Oracle) (s : GraphState) :
    (stateAfterContext o s).topic = s.topic := by
  unfold stateAfterContext
  split <;> rfl

theorem afterContext_depth (o : Oracle) (s : GraphState) :
    (stateAfterContext o s).depth = s.depth := by
  unfold stateAfterContext
  split <;> rfl

theorem afterContext_error (o : Oracle) (s : GraphState) :
    (stateAfterContext o s).error = s.error := by
  unfold stateAfterContext
  split
  · exact applyUpdate_error_none _ _ (context_summarizer_shape o s).2.2.2.2.2.1
  · rfl

theorem afterContext_plan (o : Oracle) (s : GraphState) :
    (stateAfterContext o s).plan = s.plan := by
  unfold stateAfterContext
  split
  · exact applyUpdate_plan_none _ _ (context_summarizer_shape o s).1
  · rfl

theorem afterContext_fetched (o : Oracle) (s : GraphState) :
    (stateAfterContext o s).fetched_content = s.fetched_content := by
  unfold stateAfterContext
  split
  · exact applyUpdate_fetched_none _ _ (context_summarizer_shape o s).2.2.1
  · rfl

theorem afterContext_summaries (o : Oracle) (s : GraphState) :
    (stateAfterContext o s).summaries = s.summaries := by
  unfold stateAfterContext
  split
  · exact applyUpdate_summaries_none _ _ (context_summarizer_shape o s).2.2.2.1
  · rfl

theorem afterContext_final (o : Oracle) (s : GraphState) :
    (stateAfterContext o s).final_brief = s.final_brief := by
  unfold stateAfterContext
  split
  · exact applyUpdate_final_none _ _ (context_summarizer_shape o s).2.2.2.2.1
  · rfl

theorem afterPlanner_topic (o : Oracle) (s : GraphState) :
    (stateAfterPlanner o s).topic = s.topic := by
  unfold stateAfterPlanner
  rw [applyUpdate_topic]
  exact afterContext_topic o s

theorem afterPlanner_depth (o : Oracle) (s : GraphState) :
    (stateAfterPlanner o s).depth = s.depth := by
  unfold stateAfterPlanner
  rw [applyUpdate_depth]
  exact afterContext_depth o s

theorem afterPlanner_error (o : Oracle) (s : GraphState) :
    (stateAfterPlanner o s).error = s.error := by
  unfold stateAfterPlanner
  rw [applyUpdate_error_none _ _ (planner_shape o _).2.2.2.2.2.1]
  exact afterContext_error o s

theorem afterPlanner_fetched (o : Oracle) (s : GraphState) :
    (stateAfterPlanner o s).fetched_content = s.fetched_content := by
  unfold stateAfterPlanner
  rw [applyUpdate_fetched_none _ _ (planner_shape o _).2.2.1]
  exact afterContext_fetched o s

theorem afterPlanner_summaries (o : Oracle) (s : GraphState) :
    (stateAfterPlanner o s).summaries = s.summaries := by
  unfold stateAfterPlanner
  rw [applyUpdate_summaries_none _ _ (planner_shape o _).2.2.2.1]
  exact afterContext_summaries o s

theorem afterPlanner_final (o : Oracle) (s : GraphState) :
    (stateAfterPlanner o s).final_brief = s.final_brief := by
  unfold stateAfterPlanner
  rw [applyUpdate_final_none _ _ (planner_shape o _).2.2.2.2.1]
  exact afterContext_final o s

theorem afterPlanner_plan_isSome (o : Oracle) (s : GraphState) :
    (stateAfterPlanner o s).plan.isSome = true := by
  unfold stateAfterPlanner planner
  cases o.planResult <;> rfl

theorem afterPlanner_context (o : Oracle) (s : GraphState) :
    (stateAfterPlanner o s).context_summary = (stateAfterContext o s).context_summary := by
  unfold stateAfterPlanner
  exact applyUpdate_context_none _ _ (planner_shape o _).1

theorem afterSearch_topic (o : Oracle) (s : GraphState) :
    (stateAfterSearch o s).topic = s.topic := by
  unfold stateAfterSearch
  rw [applyUpdate_topic]
  exact afterPlanner_topic o s

theorem afterSearch_context (o : Oracle) (s : GraphState) :
    (stateAfterSearch o s).context_summary = (stateAfterContext o s).context_summary := by
  unfold stateAfterSearch
  rw [applyUpdate_context_none _ _ (search_and_fetch_shape o _).1]
  exact afterPlanner_context o s

theorem afterSearch_summaries (o : Oracle) (s : GraphState) :
    (stateAfterSearch o s).summaries = s.summaries := by
  unfold stateAfterSearch
  rw [applyUpdate_summaries_none _ _ (search_and_fetch_shape o _).2.2.1]
  exact afterPlanner_summaries o s

theorem afterSearch_final (o : Oracle) (s : GraphState) :
    (stateAfterSearch o s).final_brief = s.final_brief := by
  unfold stateAfterSearch
  rw [applyUpdate_final_none _ _ (search_and_fetch_shape o _).2.2.2]
  exact afterPlanner_final o s

theorem afterSearch_empty (o : Oracle) (s : GraphState) (hsr : o.searchResult = []) :
    (stateAfterSearch o s).error = some "No content could be fetched from search results" ∧
    (stateAfterSearch o s).fetched_content = s.fetched_content := by
  obtain ⟨p, hp⟩ := Option.isSome_iff_exists.mp (afterPlanner_plan_isSome o s)
  unfold stateAfterSearch search_and_fetch
  rw [hp, hsr]
  exact ⟨rfl, afterPlanner_fetched o s⟩

theorem afterSearch_nonempty (o : Oracle) (s : GraphState) (hsr : o.searchResult ≠ []) :
    (stateAfterSearch o s).error = s.error ∧
    (stateAfterSearch o s).fetched_content = some o.searchResult := by
  obtain ⟨p, hp⟩ := Option.isSome_iff_exists.mp (afterPlanner_plan_isSome o s)
  unfold stateAfterSearch search_and_fetch
  rw [hp]
  cases hc : o.searchResult with
  | nil => exact absurd hc hsr
  | cons a l => exact ⟨afterPlanner_error o s, rfl⟩

theorem afterSumm_topic (o : Oracle) (s : GraphState) :
    (stateAfterSumm o s).topic = s.topic := by
  unfold stateAfterSumm
  rw [applyUpdate_topic]
  exact afterSearch_topic o s

theorem afterSumm_context (o : Oracle) (s : GraphState) :
    (stateAfterSumm o s).context_summary = (stateAfterContext o s).context_summary := by
  unfold stateAfterSumm
  rw [applyUpdate_context_none _ _ (per_source_summarizer_shape o _).1]
  exact afterSearch_context o s

theorem afterSumm_final (o : Oracle) (s : GraphState) :
    (stateAfterSumm o s).final_brief = s.final_brief := by
  unfold stateAfterSumm
  rw [applyUpdate_final_none _ _ (per_source_summarizer_shape o _).2.2.2.2]
  exact afterSearch_final o s

theorem afterSumm_fetched_none (o : Oracle) (s : GraphState)
    (hf : (stateAfterSearch o s).fetched_content = none) :
    (stateAfterSumm o s).error = some "No content available for summarization" := by
  unfold stateAfterSumm per_source_summarizer
  rw [hf]
  rfl

theorem afterSumm_fetched_some (o : Oracle) (s : GraphState) (l : List RawContent)
    (hf : (stateAfterSearch o s).fetched_content = some l) (hl : l ≠ []) :
    (stateAfterSumm o s).error = (stateAfterSearch o s).error ∧
    (stateAfterSumm o s).summaries = some (summarizeAll o 0 l) := by
  unfold stateAfterSumm per_source_summarizer
  rw [hf]
  cases hc : l with
  | nil => exact absurd hc hl
  | cons a t => exact ⟨rfl, rfl⟩

/-! ## Routing and run-level helper lemmas -/

theorem route_terminal_some (s : GraphState) (e : String) (he : s.error = some e)
    (hne : e ≠ "") :
    should_continue_after_error s = "error_handler" := by
  unfold should_continue_after_error
  rw [he]
  show (if e = "" then "synthesizer" else "error_handler") = "error_handler"
  rw [if_neg hne]

theorem route_terminal_none (s : GraphState) (he : s.error = none) :
    should_continue_after_error s = "synthesizer" := by
  unfold should_continue_after_error
  rw [he]

theorem route_context_iff (s : GraphState) :
    should_summarize_context s = "context_summarizer" ↔
      (s.is_follow_up = true ∧ s.history ≠ []) := by
  unfold should_summarize_context
  cases hfu : s.is_follow_up <;> cases hh : s.history <;> simp

theorem afterContext_skip (o : Oracle) (s : GraphState)
    (h : ¬ should_summarize_context s = "context_summarizer") :
    stateAfterContext o s = s := by
  unfold stateAfterContext
  rw [if_neg h]

theorem run_context (o : Oracle) (s : GraphState) :
    (runPipeline o s).state.context_summary =
      (stateAfterContext o s).context_summary := by
  unfold runPipeline
  split
  · exact (applyUpdate_context_none _ _ (error_handler_shape _).1).trans
      (afterSumm_context o s)
  · exact (applyUpdate_context_none _ _ (synthesizer_shape o _).1).trans
      (afterSumm_context o s)

theorem run_inv (o : Oracle) (s : GraphState) :
    (runPipeline o s).recallInvocations = entryInvocations o s := by
  unfold runPipeline
  split <;> rfl

theorem run_entry_mem (o : Oracle) (s : GraphState) :
    ("context_summarizer" ∈ (runPipeline o s).executed) ↔
      should_summarize_context s = "context_summarizer" := by
  unfold runPipeline
  split <;>
    (show ("context_summarizer" ∈ entryNodes s ++ _) ↔ _
     unfold entryNodes
     constructor
     · intro hm
       by_contra hc
       rw [if_neg hc] at hm
       revert hm
       decide
     · intro hc
       rw [if_pos hc]
       exact List.mem_append_left _ (by decide))

theorem checkpoint_empty (o : Oracle) (s : GraphState)
    (hf : s.fetched_content = none) (hsr : o.searchResult = []) :
    (stateAfterSumm o s).error = some "No content available for summarization" :=
  afterSumm_fetched_none o s (((afterSearch_empty o s hsr).2).trans hf)

theorem checkpoint_nonempty (o : Oracle) (s : GraphState) (he : s.error = none)
    (hsr : o.searchResult ≠ []) :
    (stateAfterSumm o s).error = none ∧
    (stateAfterSumm o s).summaries = some (summarizeAll o 0 o.searchResult) := by
  obtain ⟨he2, hf⟩ := afterSearch_nonempty o s hsr
  obtain ⟨ha, hb⟩ := afterSumm_fetched_some o s o.searchResult hf hsr
  exact ⟨ha.trans (he2.trans he), hb⟩

theorem filter_terminal_error (s : GraphState) :
    ((entryNodes s ++
        ["planner", "search_and_fetch", "per_source_summarizer", "error_handler"]).filter
      (fun n => n == "synthesizer" || n == "error_handler")).length = 1 := by
  unfold entryNodes
  split
  · decide
  · decide

theorem filter_terminal_synth (s : GraphState) :
    ((entryNodes s ++
        ["planner", "search_and_fetch", "per_source_summarizer", "synthesizer"]).filter
      (fun n => n == "synthesizer" || n == "error_handler")).length = 1 := by
  unfold entryNodes
  split
  · decide
  · decide

/-! ## Summarization loop lemmas -/

theorem summarizeAll_length (o : Oracle) (i : Nat) (l : List RawContent) :
    (summarizeAll o i l).length = l.length := by
  induction l generalizing i with
  | nil => rfl
  | cons a t ih => simp [summarizeAll, ih]

theorem summarizeAll_getElem (o : Oracle) (j k : Nat) (l : List RawContent)
    (hk : k < l.length) (hk2 : k < (summarizeAll o j l).length) :
    (summarizeAll o j l)[k] = summarizeOne l[k] (o.summarize (j + k)) := by
  induction l generalizing j k with
  | nil => exact absurd hk (by simp)
  | cons a t ih =>
    cases k with
    | zero => simp [summarizeAll]
    | succ m =>
      have h1 : m < t.length := by simpa using hk
      have h2 : m < (summarizeAll o (j + 1) t).length := by
        rw [summarizeAll_length]
        exact h1
      show (summarizeOne a (o.summarize j) :: summarizeAll o (j + 1) t)[m + 1] =
        summarizeOne (a :: t)[m + 1] (o.summarize (j + (m + 1)))
      rw [List.getElem_cons_succ, List.getElem_cons_succ, ih (j + 1) m h1 h2]
      have harith : j + 1 + m = j + (m + 1) := by omega
      rw [harith]

theorem afterContext_fallback (o : Oracle) (s : GraphState)
    (hfu : s.is_follow_up = true) (hh : s.history ≠ []) (hr : o.recallResult = none) :
    (stateAfterContext o s).context_summary = some (fallbackContext s.history) := by
  have hroute : should_summarize_context s = "context_summarizer" :=
    (route_context_iff s).mpr ⟨hfu, hh⟩
  unfold stateAfterContext
  rw [if_pos hroute]
  unfold context_summarizer
  have hg : (s.history.isEmpty || !s.is_follow_up) = false := by
    rw [hfu]
    cases hc : s.history with
    | nil => exact absurd hc hh
    | cons a t => rfl
  rw [hg, hr]
  rfl

/-! ## Claim theorems -/

/-- C1: for every valid initial PipelineState and every behaviour of the
external collaborators, the pipeline run is total and ends with a
`FinalBrief` in the final state (never null), and exactly one of the two
terminal stages (Synthesis or Error-Terminal) is executed. -/
theorem C1_run_terminates_with_one_brief (o : Oracle) (s : GraphState)
    (hv : ValidInit s) :
    (runPipeline o s).state.final_brief.isSome = true ∧
    ((runPipeline o s).executed.filter
      (fun n => n == "synthesizer" || n == "error_handler")).length = 1 := by
  obtain ⟨hc, hp, hs, hfetch, hsum, hfin, herr⟩ := hv
  by_cases hsr : o.searchResult = []
  · have h4 := checkpoint_empty o s hfetch hsr
    have hroute := route_terminal_some (stateAfterSumm o s) _ h4 (by decide)
    unfold runPipeline
    rw [if_pos hroute]
    refine ⟨?_, filter_terminal_error s⟩
    show (applyUpdate _ (error_handler _)).final_brief.isSome = true
    unfold error_handler
    rw [h4]
    rfl
  · obtain ⟨h4e, h4s⟩ := checkpoint_nonempty o s herr hsr
    have hroute := route_terminal_none _ h4e
    have hne : should_continue_after_error (stateAfterSumm o s) ≠ "error_handler" := by
      rw [hroute]
      decide
    unfold runPipeline
    rw [if_neg hne]
    refine ⟨?_, filter_terminal_synth s⟩
    show (applyUpdate _ (synthesizer o _)).final_brief.isSome = true
    unfold synthesizer
    cases hc2 : o.searchResult with
    | nil => exact absurd hc2 hsr
    | cons a t =>
      rw [hc2] at h4s
      rw [h4s]
      cases o.synthesize <;> rfl

/-- Witness for C1 at a concrete valid initial state and a concrete
oracle (all collaborator calls fail, search yields nothing). -/
theorem C1_witness :
    ValidInit baseInit ∧
    ((runPipeline failingOracle baseInit).state.final_brief.isSome = true ∧
     ((runPipeline failingOracle baseInit).executed.filter
       (fun n => n == "synthesizer" || n == "error_handler")).length = 1) :=
  ⟨⟨rfl, rfl, rfl, rfl, rfl, rfl, rfl⟩,
   C1_run_terminates_with_one_brief failingOracle baseInit
     ⟨rfl, rfl, rfl, rfl, rfl, rfl, rfl⟩⟩

/-- C4: the Context Recall stage executes exactly when `is_follow_up` is
true and `history` is non-empty; when it does not execute,
`context_summary` is still null in the final state and no context-recall
model invocation happens. -/
theorem C4_context_recall_gating (o : Oracle) (s : GraphState) (hv : ValidInit s) :
    (("context_summarizer" ∈ (runPipeline o s).executed) ↔
      (s.is_follow_up = true ∧ s.history ≠ [])) ∧
    (¬(s.is_follow_up = true ∧ s.history ≠ []) →
      (runPipeline o s).state.context_summary = none ∧
      (runPipeline o s).recallInvocations = 0) := by
  constructor
  · exact (run_entry_mem o s).trans (route_context_iff s)
  · intro hn
    have hr : ¬ should_summarize_context s = "context_summarizer" :=
      fun hcc => hn ((route_context_iff s).mp hcc)
    constructor
    · rw [run_context, afterContext_skip o s hr]
      exact hv.1
    · rw [run_inv]
      unfold entryInvocations
      rw [if_neg hr]

/-- Witness for C4 at a concrete non-follow-up initial state. -/
theorem C4_witness :
    ValidInit baseInit ∧
    ((("context_summarizer" ∈ (runPipeline failingOracle baseInit).executed) ↔
       (baseInit.is_follow_up = true ∧ baseInit.history ≠ [])) ∧
     (¬(baseInit.is_follow_up = true ∧ baseInit.history ≠ []) →
       (runPipeline failingOracle baseInit).state.context_summary = none ∧
       (runPipeline failingOracle baseInit).recallInvocations = 0)) :=
  ⟨⟨rfl, rfl, rfl, rfl, rfl, rfl, rfl⟩,
   C4_context_recall_gating failingOracle baseInit ⟨rfl, rfl, rfl, rfl, rfl, rfl, rfl⟩⟩

/-- C5: for every input state and every oracle behaviour (including a
failing structured-output invocation), the Context Recall stage's
returned update sets only `context_summary` and the Planning stage's
returned update sets only `plan`; neither ever sets `error`. -/
theorem C5_recall_and_planning_never_error (o : Oracle) (s : GraphState) :
    ((context_summarizer o s).1.error = none ∧
     (context_summarizer o s).1.plan = none ∧
     (context_summarizer o s).1.search_results = none ∧
     (context_summarizer o s).1.fetched_content = none ∧
     (context_summarizer o s).1.summaries = none ∧
     (context_summarizer o s).1.final_brief = none ∧
     (context_summarizer o s).1.context_summary.isSome = true) ∧
    ((planner o s).error = none ∧
     (planner o s).context_summary = none ∧
     (planner o s).search_results = none ∧
     (planner o s).fetched_content = none ∧
     (planner o s).summaries = none ∧
     (planner o s).final_brief = none ∧
     (planner o s).plan.isSome = true) := by
  obtain ⟨a1, a2, a3, a4, a5, a6, a7⟩ := context_summarizer_shape o s
  obtain ⟨b1, b2, b3, b4, b5, b6, b7⟩ := planner_shape o s
  exact ⟨⟨a6, a1, a2, a3, a4, a5, a7⟩, ⟨b6, b1, b2, b3, b4, b5, b7⟩⟩

/-- C6: when the Planning invocation fails and the depth is one of the
three documented values, the fallback plan has exactly the three
templated queries, focus areas `[topic]`, and `expected_sources` from
the fixed table (shallow 3, moderate 5, deep 8), always within 1..15. -/
theorem C6_fallback_plan (o : Oracle) (s : GraphState) (hfail : o.planResult = none)
    (hd : s.depth = "shallow" ∨ s.depth = "moderate" ∨ s.depth = "deep") :
    ∃ p, (planner o s).plan = some p ∧
      p.queries = [s.topic ++ " research", s.topic ++ " analysis", s.topic ++ " trends"] ∧
      p.focus_areas = [s.topic] ∧
      p.expected_sources =
        (if s.depth = "shallow" then 3 else if s.depth = "moderate" then 5 else 8) ∧
      1 ≤ p.expected_sources ∧ p.expected_sources ≤ 15 := by
  refine ⟨fallbackPlan s.topic s.depth, ?_, rfl, rfl, ?_, ?_, ?_⟩
  · unfold planner
    rw [hfail]
  · show depthToSources s.depth = _
    rcases hd with h | h | h <;> simp [depthToSources, h]
  · show 1 ≤ depthToSources s.depth
    unfold depthToSources
    split
    · decide
    · split
      · decide
      · split <;> decide
  · show depthToSources s.depth ≤ 15
    unfold depthToSources
    split
    · decide
    · split
      · decide
      · split <;> decide

/-- Witness for C6 at a concrete moderate-depth state and a failing
planner invocation. -/
theorem C6_witness :
    ∃ p, (planner failingOracle baseInit).plan = some p ∧
      p.queries = [baseInit.topic ++ " research", baseInit.topic ++ " analysis",
        baseInit.topic ++ " trends"] ∧
      p.focus_areas = [baseInit.topic] ∧
      p.expected_sources =
        (if baseInit.depth = "shallow" then 3
         else if baseInit.depth = "moderate" then 5 else 8) ∧
      1 ≤ p.expected_sources ∧ p.expected_sources ≤ 15 :=
  C6_fallback_plan failingOracle baseInit rfl (Or.inr (Or.inl rfl))

/-- C10: when the Planning invocation fails on a depth string outside
the three documented values, the fallback `expected_sources` defaults to
5 and the plan is still well-formed (within 1..15). -/
theorem C10_fallback_depth_default (o : Oracle) (s : GraphState)
    (hfail : o.planResult = none)
    (hd : s.depth ≠ "shallow" ∧ s.depth ≠ "moderate" ∧ s.depth ≠ "deep") :
    ∃ p, (planner o s).plan = some p ∧ p.expected_sources = 5 ∧
      1 ≤ p.expected_sources ∧ p.expected_sources ≤ 15 := by
  refine ⟨fallbackPlan s.topic s.depth, ?_, ?_, ?_, ?_⟩
  · unfold planner
    rw [hfail]
  · show depthToSources s.depth = 5
    unfold depthToSources
    rw [if_neg hd.1, if_neg hd.2.1, if_neg hd.2.2]
  · show 1 ≤ depthToSources s.depth
    unfold depthToSources
    rw [if_neg hd.1, if_neg hd.2.1, if_neg hd.2.2]
    decide
  · show depthToSources s.depth ≤ 15
    unfold depthToSources
    rw [if_neg hd.1, if_neg hd.2.1, if_neg hd.2.2]
    decide

/-- Witness for C10 at a concrete state whose depth string is
"expert". -/
theorem C10_witness :
    ∃ p, (planner failingOracle oddDepthInit).plan = some p ∧
      p.expected_sources = 5 ∧
      1 ≤ p.expected_sources ∧ p.expected_sources ≤ 15 :=
  C10_fallback_depth_default failingOracle oddDepthInit rfl
    ⟨by decide, by decide, by decide⟩

/-- Counterexample to C2 as stated: at a concrete run in which Retrieval
produces zero sources, the terminal brief's metadata error entry is
"No content available for summarization" (the summarization stage's
guard overwrote Retrieval's message), not the Retrieval message the
claim names. -/
theorem C2_counterexample :
    failingOracle.searchResult = [] ∧
    (runPipeline failingOracle baseInit).state.error =
      some "No content available for summarization" ∧
    (runPipeline failingOracle baseInit).state.final_brief =
      some (errorBrief "quantum computing advances"
        "No content available for summarization") ∧
    (errorBrief "quantum computing advances"
        "No content available for summarization").metadata.lookup "error" ≠
      some "No content could be fetched from search results" :=
  ⟨rfl, rfl, rfl, by decide⟩

/-- C2 as amended: when Retrieval yields zero sources, the state error
at the terminal is non-null but holds the summarization stage's message
"No content available for summarization" (which replaced Retrieval's
message); the terminal brief's metadata error entry equals that same
message, and its references are exactly one sentinel entry of relevance
0.0 with source type "error". -/
theorem C2_amended_zero_sources (o : Oracle) (s : GraphState) (hv : ValidInit s)
    (hsr : o.searchResult = []) :
    (runPipeline o s).state.error ≠ none ∧
    (runPipeline o s).state.final_brief =
      some (errorBrief s.topic "No content available for summarization") ∧
    (errorBrief s.topic "No content available for summarization").metadata.lookup
      "error" = some "No content available for summarization" ∧
    (errorBrief s.topic "No content available for summarization").references.length
      = 1 ∧
    ∀ r ∈ (errorBrief s.topic "No content available for summarization").references,
      r.relevance_score = 0 ∧ r.source_type = "error" := by
  obtain ⟨hc, hp, hs, hfetch, hsum, hfin, herr⟩ := hv
  have h4 := checkpoint_empty o s hfetch hsr
  have hroute := route_terminal_some (stateAfterSumm o s) _ h4 (by decide)
  refine ⟨?_, ?_, rfl, rfl, ?_⟩
  · unfold runPipeline
    rw [if_pos hroute]
    show (applyUpdate _ (error_handler _)).error ≠ none
    rw [applyUpdate_error_none _ _ (error_handler_shape _).2.2.2.2.2, h4]
    exact Option.some_ne_none _
  · unfold runPipeline
    rw [if_pos hroute]
    show (applyUpdate _ (error_handler _)).final_brief = _
    unfold error_handler
    rw [h4]
    show some (errorBrief (stateAfterSumm o s).topic
      "No content available for summarization") = _
    rw [afterSumm_topic]
  · intro r hr
    have : r = errorReference "No content available for summarization" := by
      simpa [errorBrief] using hr
    rw [this]
    exact ⟨rfl, rfl⟩

/-- Witness for the amended C2 at a concrete empty-search run. -/
theorem C2_witness :
    ValidInit baseInit ∧
    (runPipeline failingOracle baseInit).state.error ≠ none ∧
    (runPipeline failingOracle baseInit).state.final_brief =
      some (errorBrief baseInit.topic "No content available for summarization") :=
  ⟨⟨rfl, rfl, rfl, rfl, rfl, rfl, rfl⟩,
   (C2_amended_zero_sources failingOracle baseInit
     ⟨rfl, rfl, rfl, rfl, rfl, rfl, rfl⟩ rfl).1,
   (C2_amended_zero_sources failingOracle baseInit
     ⟨rfl, rfl, rfl, rfl, rfl, rfl, rfl⟩ rfl).2.1⟩

/-- Counterexample to C3 as stated: at a concrete run, Retrieval sets
the error "No content could be fetched from search results", yet the
value at the post-summarization checkpoint is the different message
written by the summarization stage, so a stage after Retrieval did
replace the originally set error value. -/
theorem C3_counterexample :
    (stateAfterSearch failingOracle baseInit).error =
      some "No content could be fetched from search results" ∧
    (stateAfterSumm failingOracle baseInit).error =
      some "No content available for summarization" ∧
    ("No content could be fetched from search results" : String) ≠
      "No content available for summarization" :=
  ⟨rfl, rfl, by decide⟩

/-- C3 as amended: once Retrieval has set an error it is never cleared
(the checkpoint error is always non-null), but its value survives only
when `fetched_content` is non-empty; when `fetched_content` is missing
or empty, the Per-Source Summarization stage replaces the value with
"No content available for summarization". -/
theorem C3_amended_error_monotone (o : Oracle) (s : GraphState) (e : String)
    (h : (stateAfterSearch o s).error = some e) :
    (stateAfterSumm o s).error =
      some (match (stateAfterSearch o s).fetched_content with
        | none => "No content available for summarization"
        | some [] => "No content available for summarization"
        | some (_ :: _) => e) := by
  cases hf : (stateAfterSearch o s).fetched_content with
  | none =>
    rw [afterSumm_fetched_none o s hf]
  | some l =>
    cases hl : l with
    | nil =>
      subst hl
      unfold stateAfterSumm per_source_summarizer
      rw [hf]
      rfl
    | cons a t =>
      subst hl
      rw [(afterSumm_fetched_some o s (a :: t) hf (List.cons_ne_nil a t)).1, h]

/-- Witness for the amended C3 at a concrete empty-search run, where
Retrieval's message is indeed replaced. -/
theorem C3_witness :
    (stateAfterSearch failingOracle baseInit).error =
      some "No content could be fetched from search results" ∧
    (stateAfterSumm failingOracle baseInit).error =
      some (match (stateAfterSearch failingOracle baseInit).fetched_content with
        | none => "No content available for summarization"
        | some [] => "No content available for summarization"
        | some (_ :: _) => "No content could be fetched from search results") :=
  ⟨rfl,
   C3_amended_error_monotone failingOracle baseInit
     "No content could be fetched from search results" rfl⟩

/-- Counterexample to C7 as stated: at a concrete state with one fetched
source and a successful per-source invocation, the produced summary's
url is the collaborator-returned url, which matches no fetched source's
url — the stage does not force the origin url on the success path. -/
theorem C7_counterexample :
    (per_source_summarizer mismatchOracle fetchedState).summaries =
      some [mismatchedSummary] ∧
    mismatchedSummary.url = "https://b.example.com/other" ∧
    [sampleFetched].map RawContent.url = ["https://a.example.com/q"] ∧
    mismatchedSummary.url ∉ [sampleFetched].map RawContent.url :=
  ⟨rfl, rfl, rfl, by decide⟩

/-- C7 as amended: with non-empty `fetched_content` the stage is
count-preserving (one summary per source, in order), and the origin url
is preserved exactly on the two fallback paths; on a successful
invocation the summary carries the collaborator-returned url. -/
theorem C7_amended_count_preserving (o : Oracle) (s : GraphState)
    (fetched : List RawContent) (hf : s.fetched_content = some fetched)
    (hne : fetched ≠ []) :
    ∃ l, (per_source_summarizer o s).summaries = some l ∧
      l.length = fetched.length ∧
      ∀ (k : Nat) (hk : k < fetched.length) (hk2 : k < l.length),
        l[k].url =
          (match o.summarize k with
           | SummOutcome.ok t => t.url
           | SummOutcome.invokeFail => fetched[k].url
           | SummOutcome.otherFail _ => fetched[k].url) := by
  refine ⟨summarizeAll o 0 fetched, ?_, summarizeAll_length o 0 fetched, ?_⟩
  · unfold per_source_summarizer
    rw [hf]
    cases hc : fetched with
    | nil => exact absurd hc hne
    | cons a t => rfl
  · intro k hk hk2
    rw [summarizeAll_getElem o 0 k fetched hk hk2]
    rw [Nat.zero_add]
    cases o.summarize k <;> rfl

/-- Witness for the amended C7 at a concrete one-source state whose
per-source invocation succeeds with a url-mismatched summary. -/
theorem C7_witness :
    ∃ l, (per_source_summarizer mismatchOracle fetchedState).summaries = some l ∧
      l.length = [sampleFetched].length ∧
      ∀ (k : Nat) (hk : k < [sampleFetched].length) (hk2 : k < l.length),
        l[k].url =
          (match mismatchOracle.summarize k with
           | SummOutcome.ok t => t.url
           | SummOutcome.invokeFail => [sampleFetched][k].url
           | SummOutcome.otherFail _ => [sampleFetched][k].url) :=
  C7_amended_count_preserving mismatchOracle fetchedState [sampleFetched] rfl
    (List.cons_ne_nil _ _)

/-- C8: on a follow-up run with non-empty history whose Context Recall
invocation fails, the final state's context summary is the deterministic
fallback — topics of all history entries, concatenated insights of all
entries, empty preference map, and the fixed continuity note — and, when
Retrieval later succeeds, the run still reaches Synthesis. -/
theorem C8_context_fallback (o : Oracle) (s : GraphState) (hv : ValidInit s)
    (hfu : s.is_follow_up = true) (hh : s.history ≠ [])
    (hr : o.recallResult = none) :
    (runPipeline o s).state.context_summary = some (fallbackContext s.history) ∧
    (fallbackContext s.history).previous_topics = s.history.map FinalBrief.topic ∧
    (fallbackContext s.history).key_findings =
      s.history.flatMap FinalBrief.key_insights ∧
    (fallbackContext s.history).user_preferences = [] ∧
    (fallbackContext s.history).continuity_notes =
      "Previous research context available" ∧
    (o.searchResult ≠ [] → "synthesizer" ∈ (runPipeline o s).executed) := by
  refine ⟨?_, rfl, rfl, rfl, rfl, ?_⟩
  · rw [run_context]
    exact afterContext_fallback o s hfu hh hr
  · intro hsr
    obtain ⟨h4e, _⟩ := checkpoint_nonempty o s hv.2.2.2.2.2.2 hsr
    have hne : should_continue_after_error (stateAfterSumm o s) ≠ "error_handler" := by
      rw [route_terminal_none _ h4e]
      decide
    unfold runPipeline
    rw [if_neg hne]
    exact List.mem_append_right _ (by decide)

/-- Witness for C8 at a concrete follow-up state with two prior briefs,
a failing recall invocation, and a successful search. -/
theorem C8_witness :
    ValidInit followUpInit ∧
    (runPipeline fetchOkOracle followUpInit).state.context_summary =
      some (fallbackContext followUpInit.history) ∧
    "synthesizer" ∈ (runPipeline fetchOkOracle followUpInit).executed :=
  ⟨⟨rfl, rfl, rfl, rfl, rfl, rfl, rfl⟩,
   (C8_context_fallback fetchOkOracle followUpInit
      ⟨rfl, rfl, rfl, rfl, rfl, rfl, rfl⟩ rfl (by decide) rfl).1,
   (C8_context_fallback fetchOkOracle followUpInit
      ⟨rfl, rfl, rfl, rfl, rfl, rfl, rfl⟩ rfl (by decide) rfl).2.2.2.2.2
     (by decide)⟩

/-- Counterexample to C9 as stated: a search hit with more than 20
content words and a URL that is valid in the claim's sense (scheme
https, nonempty netloc, scheme starts with no blocked token) is
nevertheless discarded, because the source checks the blocked tokens as
substrings of the whole URL and this URL mentions `javascript:` in its
query string. -/
theorem C9_counterexample :
    keepHit blockedSubstringHit = false ∧
    specValidUrl blockedSubstringHit.url = true ∧
    20 < (pyWords blockedSubstringHit.content).length :=
  ⟨rfl, rfl, by decide⟩

/-- C9 as amended: a dict search hit is kept exactly when its word count
exceeds 20, its parsed scheme is http or https, its netloc is nonempty,
and none of `javascript:`, `data:`, `file:`, `ftp:` occurs as a
substring anywhere in the lower-cased URL. -/
theorem C9_amended_keep_iff (h : SearchHit) :
    keepHit h = true ↔
      (20 < (pyWords h.content).length ∧
       ((urlparse h.url).scheme = "http" ∨ (urlparse h.url).scheme = "https") ∧
       (urlparse h.url).netloc ≠ "" ∧
       ∀ b ∈ blockedFragments, strContains (lowerString h.url) b = false) := by
  simp only [keepHit, is_valid_url, normalizeHit, Bool.and_eq_true, bne_iff_ne, ne_eq,
    Bool.or_eq_true, beq_iff_eq, decide_eq_true_eq, Bool.not_eq_true',
    List.any_eq_false]
  constructor
  · rintro ⟨⟨hurl, ⟨hsch, hnet⟩, hblock⟩, hwc⟩
    exact ⟨hwc, hsch, hnet, fun b hb => Bool.eq_false_iff.mpr (hblock b hb)⟩
  · rintro ⟨hwc, hsch, hnet, hblock⟩
    exact ⟨⟨fun hu => hnet (by rw [hu]; rfl), ⟨hsch, hnet⟩,
      fun x hx => Bool.eq_false_iff.mp (hblock x hx)⟩, hwc⟩

/-- Witness for C5 at a concrete follow-up state and all-failing
oracle. -/
theorem C5_witness :
    (context_summarizer failingOracle followUpInit).1.error = none ∧
    (planner failingOracle followUpInit).error = none :=
  ⟨(C5_recall_and_planning_never_error failingOracle followUpInit).1.1,
   (C5_recall_and_planning_never_error failingOracle followUpInit).2.1⟩

/-- Witness for the amended C9 at the concrete blocked-substring hit. -/
theorem C9_witness :
    keepHit blockedSubstringHit = true ↔
      (20 < (pyWords blockedSubstringHit.content).length ∧
       ((urlparse blockedSubstringHit.url).scheme = "http" ∨
        (urlparse blockedSubstringHit.url).scheme = "https") ∧
       (urlparse blockedSubstringHit.url).netloc ≠ "" ∧
       ∀ b ∈ blockedFragments,
         strContains (lowerString blockedSubstringHit.url) b = false) :=
  C9_amended_keep_iff blockedSubstringHit
